import Mathlib

/-!
Verification of the climate-simulator dashboard core (src/app.py).

The simulation model is the pure function simulate (app.py lines 15-42);
session state, challenge evaluation, scenario snapshots and presets are
modelled as explicit state-passing functions over a SessionState record.
Real-valued arithmetic in the source (numpy floats) is modelled over the
real numbers.
-/

namespace ClimateSim

/-- A row of the dataframe produced by simulate: year, temp anomaly, flood
and drought risks (app.py lines 34-41). -/
structure YearRecord where
  year : ℤ
  temp_anomaly_C : ℝ
  flood_risk : ℝ
  drought_risk : ℝ

/-- Temperature-anomaly asymptote, app.py line 18: 1.2 * log(co2_ppm / 280). -/
noncomputable def temp_anom (co2_ppm : ℤ) : ℝ :=
  1.2 * Real.log ((co2_ppm : ℝ) / 280)

/-- Temperature series at offset i, app.py line 19:
temp_anom * (1 - exp(-t / 25)). -/
noncomputable def temp_series (co2_ppm : ℤ) (i : ℕ) : ℝ :=
  temp_anom co2_ppm * (1 - Real.exp (-(i : ℝ) / 25))

/-- Rainfall factor, app.py line 21: 1 + rainfall_change_pct / 100. -/
noncomputable def rainfall_factor (rainfall_change_pct : ℤ) : ℝ :=
  1 + (rainfall_change_pct : ℝ) / 100

/-- Runoff index, app.py line 25:
rainfall_factor * (0.6 + 1.2 * impervious) * (1 - 0.55 * green). -/
noncomputable def runoff_index (rainfall_change_pct green_infra_pct urbanization_pct : ℤ) : ℝ :=
  rainfall_factor rainfall_change_pct * (0.6 + 1.2 * ((urbanization_pct : ℝ) / 100))
    * (1 - 0.55 * ((green_infra_pct : ℝ) / 100))

/-- Runoff series, app.py line 26: runoff_index * (1 + 0.08 * temp_series). -/
noncomputable def runoff_series (co2_ppm rainfall_change_pct green_infra_pct urbanization_pct : ℤ)
    (i : ℕ) : ℝ :=
  runoff_index rainfall_change_pct green_infra_pct urbanization_pct
    * (1 + 0.08 * temp_series co2_ppm i)

/-- Flood risk, app.py line 28: 100 * (1 - exp(-0.9 * runoff_series)). -/
noncomputable def flood_risk (co2_ppm rainfall_change_pct green_infra_pct urbanization_pct : ℤ)
    (i : ℕ) : ℝ :=
  100 * (1 - Real.exp (-0.9
    * runoff_series co2_ppm rainfall_change_pct green_infra_pct urbanization_pct i))

/-- Evaporative demand, app.py line 30: 1 + 0.18 * temp_series. -/
noncomputable def evap (co2_ppm : ℤ) (i : ℕ) : ℝ :=
  1 + 0.18 * temp_series co2_ppm i

/-- Drought index, app.py line 31: (evap / rainfall_factor) * (1 - 0.15 * green). -/
noncomputable def drought_index (co2_ppm rainfall_change_pct green_infra_pct : ℤ) (i : ℕ) : ℝ :=
  (evap co2_ppm i / rainfall_factor rainfall_change_pct)
    * (1 - 0.15 * ((green_infra_pct : ℝ) / 100))

/-- Drought risk, app.py line 32: 100 * (1 - exp(-0.8 * drought_index)). -/
noncomputable def drought_risk (co2_ppm rainfall_change_pct green_infra_pct : ℤ) (i : ℕ) : ℝ :=
  100 * (1 - Real.exp (-0.8 * drought_index co2_ppm rainfall_change_pct green_infra_pct i))

/-- The simulation model, app.py lines 15-42: builds the dataframe row by
row over offsets 0..years. -/
noncomputable def simulate (years co2_ppm rainfall_change_pct green_infra_pct
    urbanization_pct : ℤ) : List YearRecord :=
  (List.range (years.toNat + 1)).map fun (i : ℕ) =>
    { year := 2025 + (i : ℤ)
      temp_anomaly_C := temp_series co2_ppm i
      flood_risk := flood_risk co2_ppm rainfall_change_pct green_infra_pct urbanization_pct i
      drought_risk := drought_risk co2_ppm rainfall_change_pct green_infra_pct i }

/-- The slider domains of the five parameters (app.py lines 186-198, spec
section 3). -/
def InDomain (years co2_ppm rainfall_change_pct green_infra_pct urbanization_pct : ℤ) : Prop :=
  20 ≤ years ∧ years ≤ 120 ∧ 280 ≤ co2_ppm ∧ co2_ppm ≤ 900
    ∧ -30 ≤ rainfall_change_pct ∧ rainfall_change_pct ≤ 50
    ∧ 0 ≤ green_infra_pct ∧ green_infra_pct ≤ 100
    ∧ 0 ≤ urbanization_pct ∧ urbanization_pct ≤ 100

instance (years co2_ppm rainfall_change_pct green_infra_pct urbanization_pct : ℤ) :
    Decidable (InDomain years co2_ppm rainfall_change_pct green_infra_pct urbanization_pct) := by
  unfold InDomain; infer_instance

/-- Spec 4.1 step 3, written from the spec text: the temperature series is
1.2 * ln(co2Ppm/280) * (1 - exp(-i/25)). -/
noncomputable def specTempSeries (co2Ppm : ℤ) (i : ℕ) : ℝ :=
  1.2 * Real.log ((co2Ppm : ℝ) / 280) * (1 - Real.exp (-(i : ℝ) / 25))

/-- Spec 4.1 step 5, written from the spec text: runoffIndex =
(1 + rainfallChangePct/100) * (0.6 + 1.2*urbanizationPct/100) * (1 - 0.55*greenInfraPct/100). -/
noncomputable def specRunoffIndex (rainfallChangePct greenInfraPct urbanizationPct : ℤ) : ℝ :=
  (1 + (rainfallChangePct : ℝ) / 100) * (0.6 + 1.2 * (urbanizationPct : ℝ) / 100)
    * (1 - 0.55 * (greenInfraPct : ℝ) / 100)

/-- Spec 4.1 step 7, written from the spec text: floodRisk =
100 * (1 - exp(-0.9 * runoffIndex * (1 + 0.08*tempSeries))). -/
noncomputable def specFloodRisk (co2Ppm rainfallChangePct greenInfraPct urbanizationPct : ℤ)
    (i : ℕ) : ℝ :=
  100 * (1 - Real.exp (-0.9 * specRunoffIndex rainfallChangePct greenInfraPct urbanizationPct
    * (1 + 0.08 * specTempSeries co2Ppm i)))

/-- Spec 4.1 step 10, written from the spec text: droughtRisk =
100 * (1 - exp(-0.8 * ((1 + 0.18*tempSeries) / (1 + rainfallChangePct/100))
* (1 - 0.15*greenInfraPct/100))). -/
noncomputable def specDroughtRisk (co2Ppm rainfallChangePct greenInfraPct : ℤ) (i : ℕ) : ℝ :=
  100 * (1 - Real.exp (-0.8 * ((1 + 0.18 * specTempSeries co2Ppm i)
    / (1 + (rainfallChangePct : ℝ) / 100)) * (1 - 0.15 * (greenInfraPct : ℝ) / 100)))

/-- The Mode radio widget, app.py line 183: Standard or Kids (simple). -/
inductive Mode where
  | Standard
  | Kids
deriving DecidableEq

/-- The Difficulty selectbox, app.py line 214. -/
inductive Difficulty where
  | Easy
  | Medium
  | Hard
deriving DecidableEq

/-- Flood target of a difficulty, DIFFICULTY_TARGETS at app.py lines 66-70. -/
def target_flood : Difficulty → ℤ
  | .Easy => 55
  | .Medium => 40
  | .Hard => 30

/-- Drought target of a difficulty, DIFFICULTY_TARGETS at app.py lines 66-70. -/
def target_drought : Difficulty → ℤ
  | .Easy => 55
  | .Medium => 40
  | .Hard => 30

/-- Parameter dict stored by snapshot_current, app.py lines 79-86. -/
structure SnapshotParams where
  mode : Mode
  years : ℤ
  co2_ppm : ℤ
  rainfall_change_pct : ℤ
  green_infra_pct : ℤ
  urbanization_pct : ℤ

/-- A saved scenario: params plus a copy of the dataframe, app.py line 87. -/
structure Snapshot where
  params : SnapshotParams
  df : List YearRecord

/-- The session state of the app: the keys of DEFAULTS, app.py lines 48-64. -/
structure SessionState where
  mode : Mode
  years : ℤ
  co2_ppm : ℤ
  rainfall_change_pct : ℤ
  green_infra_pct : ℤ
  urbanization_pct : ℤ
  challenge_on : Bool
  challenge_won : Bool
  difficulty_choice : Difficulty
  compare_on : Bool
  scenario_A : Option Snapshot
  scenario_B : Option Snapshot

/-- The DEFAULTS dict, app.py lines 48-64. -/
def DEFAULTS : SessionState where
  mode := Mode.Standard
  years := 80
  co2_ppm := 450
  rainfall_change_pct := 10
  green_infra_pct := 20
  urbanization_pct := 40
  challenge_on := false
  challenge_won := false
  difficulty_choice := Difficulty.Medium
  compare_on := false
  scenario_A := none
  scenario_B := none

/-- The Reset to Default button, app.py lines 112-133: every session key is
popped and re-seeded from DEFAULTS. -/
def resetAll (_ : SessionState) : SessionState := DEFAULTS

/-- The kids-mode override, app.py lines 191-194: when the mode is Kids,
urbanization_pct is force-set to 45 before the simulation runs; no other
key is touched by the mode branch. -/
def applyKidsOverride (s : SessionState) : SessionState :=
  if s.mode = Mode.Kids then { s with urbanization_pct := 45 } else s

/-- The simulate call of the rendering pass, app.py lines 231-237, applied
to the session values after the sidebar (hence after the kids override). -/
noncomputable def currentResult (s : SessionState) : List YearRecord :=
  let t := applyKidsOverride s
  simulate t.years t.co2_ppm t.rainfall_change_pct t.green_infra_pct t.urbanization_pct

/-- The three quick-scenario buttons, app.py lines 138-178. -/
inductive Preset where
  | Business
  | Green
  | Urban
deriving DecidableEq

/-- Effect of a quick-scenario button on the session state: the
st.session_state.update calls at app.py lines 138-178. -/
def applyPreset : Preset → SessionState → SessionState
  | .Business, s =>
      { s with
        mode := Mode.Standard
        years := 80
        co2_ppm := 650
        rainfall_change_pct := 10
        green_infra_pct := 10
        urbanization_pct := 65
        challenge_won := false }
  | .Green, s =>
      { s with
        mode := Mode.Standard
        years := 80
        co2_ppm := 380
        rainfall_change_pct := 5
        green_infra_pct := 70
        urbanization_pct := 30
        challenge_won := false }
  | .Urban, s =>
      { s with
        mode := Mode.Standard
        years := 80
        co2_ppm := 520
        rainfall_change_pct := 15
        green_infra_pct := 15
        urbanization_pct := 85
        challenge_won := false }

/-- The five-parameter bundle installed by each preset, as the code writes
it (app.py lines 138-178): (years, co2, rainfall, green, urbanization). -/
def presetBundle : Preset → ℤ × ℤ × ℤ × ℤ × ℤ
  | .Business => (80, 650, 10, 10, 65)
  | .Green => (80, 380, 5, 70, 30)
  | .Urban => (80, 520, 15, 15, 85)

/-- One evaluation of the challenge block, app.py lines 288-293, given the
end-of-horizon flood and drought values and the previous won flag. Returns
(new won flag, whether the balloons effect fired this pass). -/
noncomputable def challengeStep (d : Difficulty) (flood_val drought_val : ℝ) (won : Bool) :
    Bool × Bool :=
  by classical exact
    if flood_val ≤ (target_flood d : ℝ) ∧ drought_val ≤ (target_drought d : ℝ) then
      (true, !won)
    else
      (false, false)

/-- The guarded challenge block, app.py line 270: when challenge_on is false
the block is skipped entirely, so the won flag is left as it was and no
effect fires. -/
noncomputable def challengeUpdate (s : SessionState) (flood_val drought_val : ℝ) : Bool × Bool :=
  if s.challenge_on then
    challengeStep s.difficulty_choice flood_val drought_val s.challenge_won
  else
    (s.challenge_won, false)

/-- The final record of a dataframe (iloc[-1] at app.py lines 240-242 and
374-375). Simulated dataframes are never empty, so the default is inert. -/
def finalRecord (df : List YearRecord) : YearRecord :=
  df.getLastD { year := 0, temp_anomaly_C := 0, flood_risk := 0, drought_risk := 0 }

/-- The three comparison deltas shown at app.py lines 377-380. -/
structure Deltas where
  dTemp : ℝ
  dFlood : ℝ
  dDrought : ℝ

/-- The scenario-comparison block, app.py lines 360-380: with both slots
populated it shows the componentwise deltas of the final records (B minus
A); otherwise it shows the incomplete-comparison notice, modelled as none. -/
noncomputable def compareScenarios : Option Snapshot → Option Snapshot → Option Deltas
  | some a, some b =>
      some { dTemp := (finalRecord b.df).temp_anomaly_C - (finalRecord a.df).temp_anomaly_C
             dFlood := (finalRecord b.df).flood_risk - (finalRecord a.df).flood_risk
             dDrought := (finalRecord b.df).drought_risk - (finalRecord a.df).drought_risk }
  | _, _ => none

/-! ### Helper lemmas about the simulation model -/

lemma simulate_length (years co2_ppm rainfall_change_pct green_infra_pct urbanization_pct : ℤ) :
    (simulate years co2_ppm rainfall_change_pct green_infra_pct urbanization_pct).length
      = years.toNat + 1 := by
  simp [simulate]

lemma simulate_getElemQ (years co2_ppm rainfall_change_pct green_infra_pct urbanization_pct : ℤ)
    (i : ℕ) (hi : i < years.toNat + 1) :
    (simulate years co2_ppm rainfall_change_pct green_infra_pct urbanization_pct)[i]?
      = some { year := 2025 + (i : ℤ)
               temp_anomaly_C := temp_series co2_ppm i
               flood_risk := flood_risk co2_ppm rainfall_change_pct green_infra_pct
                 urbanization_pct i
               drought_risk := drought_risk co2_ppm rainfall_change_pct green_infra_pct i } := by
  simp [simulate, List.getElem?_map, List.getElem?_range, hi]

lemma temp_anom_nonneg {co2_ppm : ℤ} (h : 280 ≤ co2_ppm) : 0 ≤ temp_anom co2_ppm := by
  have h280 : (280 : ℝ) ≤ (co2_ppm : ℝ) := by exact_mod_cast h
  have hlog : 0 ≤ Real.log ((co2_ppm : ℝ) / 280) :=
    Real.log_nonneg ((one_le_div (by norm_num)).mpr h280)
  unfold temp_anom
  nlinarith

lemma one_sub_exp_neg_nonneg (i : ℕ) : 0 ≤ 1 - Real.exp (-(i : ℝ) / 25) := by
  have hx : -(i : ℝ) / 25 ≤ 0 := by
    have : (0 : ℝ) ≤ (i : ℝ) := Nat.cast_nonneg i
    linarith
  have := Real.exp_le_one_iff.mpr hx
  linarith

lemma temp_series_nonneg {co2_ppm : ℤ} (h : 280 ≤ co2_ppm) (i : ℕ) :
    0 ≤ temp_series co2_ppm i :=
  mul_nonneg (temp_anom_nonneg h) (one_sub_exp_neg_nonneg i)

lemma temp_series_mono {co2_ppm : ℤ} (h : 280 ≤ co2_ppm) {i j : ℕ} (hij : i ≤ j) :
    temp_series co2_ppm i ≤ temp_series co2_ppm j := by
  have hcast : (i : ℝ) ≤ (j : ℝ) := by exact_mod_cast hij
  have hexp : Real.exp (-(j : ℝ) / 25) ≤ Real.exp (-(i : ℝ) / 25) :=
    Real.exp_le_exp.mpr (by linarith)
  unfold temp_series
  have := temp_anom_nonneg h
  nlinarith

lemma rainfall_factor_pos {rainfall_change_pct : ℤ} (h : -30 ≤ rainfall_change_pct) :
    0 < rainfall_factor rainfall_change_pct := by
  have : (-30 : ℝ) ≤ (rainfall_change_pct : ℝ) := by exact_mod_cast h
  unfold rainfall_factor
  linarith

lemma runoff_index_nonneg {rainfall_change_pct green_infra_pct urbanization_pct : ℤ}
    (hr : -30 ≤ rainfall_change_pct) (hg : green_infra_pct ≤ 100) (hu : 0 ≤ urbanization_pct) :
    0 ≤ runoff_index rainfall_change_pct green_infra_pct urbanization_pct := by
  have h1 := rainfall_factor_pos hr
  have hgc : (green_infra_pct : ℝ) ≤ 100 := by exact_mod_cast hg
  have huc : (0 : ℝ) ≤ (urbanization_pct : ℝ) := by exact_mod_cast hu
  have h2 : (0 : ℝ) ≤ 0.6 + 1.2 * ((urbanization_pct : ℝ) / 100) := by linarith
  have h3 : (0 : ℝ) ≤ 1 - 0.55 * ((green_infra_pct : ℝ) / 100) := by linarith
  unfold runoff_index
  positivity

lemma runoff_series_nonneg {co2_ppm rainfall_change_pct green_infra_pct urbanization_pct : ℤ}
    (hc : 280 ≤ co2_ppm) (hr : -30 ≤ rainfall_change_pct) (hg : green_infra_pct ≤ 100)
    (hu : 0 ≤ urbanization_pct) (i : ℕ) :
    0 ≤ runoff_series co2_ppm rainfall_change_pct green_infra_pct urbanization_pct i := by
  have h1 := runoff_index_nonneg hr hg hu
  have h2 := temp_series_nonneg hc i
  unfold runoff_series
  nlinarith

lemma drought_index_nonneg {co2_ppm rainfall_change_pct green_infra_pct : ℤ}
    (hc : 280 ≤ co2_ppm) (hr : -30 ≤ rainfall_change_pct) (hg : green_infra_pct ≤ 100) (i : ℕ) :
    0 ≤ drought_index co2_ppm rainfall_change_pct green_infra_pct i := by
  have h1 := rainfall_factor_pos hr
  have h2 := temp_series_nonneg hc i
  have hev : (0 : ℝ) ≤ evap co2_ppm i := by unfold evap; linarith
  have hgc : (green_infra_pct : ℝ) ≤ 100 := by exact_mod_cast hg
  have h3 : (0 : ℝ) ≤ 1 - 0.15 * ((green_infra_pct : ℝ) / 100) := by linarith
  unfold drought_index
  exact mul_nonneg (div_nonneg hev h1.le) h3

lemma sat_transform_lt_100 (x : ℝ) : 100 * (1 - Real.exp x) < 100 := by
  have := Real.exp_pos x
  nlinarith

lemma sat_transform_nonneg {x : ℝ} (hx : x ≤ 0) : 0 ≤ 100 * (1 - Real.exp x) := by
  have := Real.exp_le_one_iff.mpr hx
  nlinarith

/-! ### Claim theorems -/

/-- C1: for every in-domain parameter set and offset i in 0..horizonYears,
simulate returns a table of horizonYears+1 rows whose row i carries exactly
the closed-form series of spec section 4.1: the temperature series
1.2*ln(co2Ppm/280)*(1 - exp(-i/25)), the flood risk
100*(1 - exp(-0.9*runoffIndex*(1 + 0.08*tempSeries[i]))) with runoffIndex
= (1 + rain/100)*(0.6 + 1.2*urb/100)*(1 - 0.55*green/100), and the drought
risk 100*(1 - exp(-0.8*((1 + 0.18*tempSeries[i])/(1 + rain/100))*(1 -
0.15*green/100))). simulate is a pure Lean function, hence deterministic. -/
theorem simulate_closed_form (years co2_ppm rainfall_change_pct green_infra_pct
    urbanization_pct : ℤ) (i : ℕ)
    (hdom : InDomain years co2_ppm rainfall_change_pct green_infra_pct urbanization_pct)
    (hi : i ≤ years.toNat) :
    (simulate years co2_ppm rainfall_change_pct green_infra_pct urbanization_pct).length
      = years.toNat + 1 ∧
    (simulate years co2_ppm rainfall_change_pct green_infra_pct urbanization_pct)[i]?
      = some { year := 2025 + (i : ℤ)
               temp_anomaly_C := specTempSeries co2_ppm i
               flood_risk := specFloodRisk co2_ppm rainfall_change_pct green_infra_pct
                 urbanization_pct i
               drought_risk := specDroughtRisk co2_ppm rainfall_change_pct green_infra_pct i } := by
  have hi2 : i < years.toNat + 1 := by omega
  refine ⟨simulate_length _ _ _ _ _, ?_⟩
  rw [simulate_getElemQ _ _ _ _ _ _ hi2]
  have htemp : temp_series co2_ppm i = specTempSeries co2_ppm i := by
    unfold temp_series temp_anom specTempSeries
    ring
  have hflood : flood_risk co2_ppm rainfall_change_pct green_infra_pct urbanization_pct i
      = specFloodRisk co2_ppm rainfall_change_pct green_infra_pct urbanization_pct i := by
    have harg : -0.9 * runoff_series co2_ppm rainfall_change_pct green_infra_pct
        urbanization_pct i
        = -0.9 * specRunoffIndex rainfall_change_pct green_infra_pct urbanization_pct
          * (1 + 0.08 * specTempSeries co2_ppm i) := by
      unfold runoff_series runoff_index rainfall_factor specRunoffIndex temp_series temp_anom
        specTempSeries
      ring
    unfold flood_risk specFloodRisk
    rw [harg]
  have hdrought : drought_risk co2_ppm rainfall_change_pct green_infra_pct i
      = specDroughtRisk co2_ppm rainfall_change_pct green_infra_pct i := by
    have harg : -0.8 * drought_index co2_ppm rainfall_change_pct green_infra_pct i
        = -0.8 * ((1 + 0.18 * specTempSeries co2_ppm i)
            / (1 + (rainfall_change_pct : ℝ) / 100))
          * (1 - 0.15 * (green_infra_pct : ℝ) / 100) := by
      unfold drought_index evap rainfall_factor temp_series temp_anom specTempSeries
      ring
    unfold drought_risk specDroughtRisk
    rw [harg]
  rw [htemp, hflood, hdrought]

/-- C1 witness: the defaults (80, 450, 10, 20, 40) are in-domain and the
theorem instantiates at offset 80. -/
theorem simulate_closed_form_witness :
    (simulate 80 450 10 20 40).length = (80 : ℤ).toNat + 1 ∧
    (simulate 80 450 10 20 40)[80]?
      = some { year := 2025 + ((80 : ℕ) : ℤ)
               temp_anomaly_C := specTempSeries 450 80
               flood_risk := specFloodRisk 450 10 20 40 80
               drought_risk := specDroughtRisk 450 10 20 80 } :=
  simulate_closed_form 80 450 10 20 40 80 (by decide) (by decide)

/-- C2: for every in-domain parameter set, simulate returns exactly
horizonYears+1 records, whose year fields increase by exactly 1 per offset,
starting at 2025 for offset 0 and ending at 2025+horizonYears. -/
theorem simulate_year_axis (years co2_ppm rainfall_change_pct green_infra_pct
    urbanization_pct : ℤ) (i : ℕ)
    (hdom : InDomain years co2_ppm rainfall_change_pct green_infra_pct urbanization_pct)
    (hi : i ≤ years.toNat) :
    (simulate years co2_ppm rainfall_change_pct green_infra_pct urbanization_pct).length
      = years.toNat + 1 ∧
    ((simulate years co2_ppm rainfall_change_pct green_infra_pct urbanization_pct)[i]?).map
      YearRecord.year = some (2025 + (i : ℤ)) ∧
    ((years.toNat : ℤ)) = years := by
  have hi2 : i < years.toNat + 1 := by omega
  refine ⟨simulate_length _ _ _ _ _, ?_, ?_⟩
  · rw [simulate_getElemQ _ _ _ _ _ _ hi2]
    rfl
  · have h20 : 20 ≤ years := hdom.1
    omega

/-- C2 witness: instantiated at the defaults and offset 80, the final row. -/
theorem simulate_year_axis_witness :
    (simulate 80 450 10 20 40).length = (80 : ℤ).toNat + 1 ∧
    ((simulate 80 450 10 20 40)[80]?).map YearRecord.year = some (2025 + ((80 : ℕ) : ℤ)) ∧
    (((80 : ℤ).toNat : ℤ)) = 80 :=
  simulate_year_axis 80 450 10 20 40 80 (by decide) (by decide)

/-- C3: for every in-domain parameter set (in particular co2Ppm at least
280), the temp_anomaly_C column of the simulate result is monotonically
non-decreasing in the offset index. -/
theorem simulate_temp_monotone (years co2_ppm rainfall_change_pct green_infra_pct
    urbanization_pct : ℤ) (i j : ℕ) (a b : YearRecord)
    (hdom : InDomain years co2_ppm rainfall_change_pct green_infra_pct urbanization_pct)
    (hij : i ≤ j) (hj : j ≤ years.toNat)
    (ha : (simulate years co2_ppm rainfall_change_pct green_infra_pct urbanization_pct)[i]?
      = some a)
    (hb : (simulate years co2_ppm rainfall_change_pct green_infra_pct urbanization_pct)[j]?
      = some b) :
    a.temp_anomaly_C ≤ b.temp_anomaly_C := by
  rw [simulate_getElemQ _ _ _ _ _ i (by omega)] at ha
  rw [simulate_getElemQ _ _ _ _ _ j (by omega)] at hb
  injection ha with ha2
  injection hb with hb2
  rw [← ha2, ← hb2]
  exact temp_series_mono hdom.2.2.1 hij

/-- C3 witness: at the defaults, the records at offsets 0 and 80. -/
theorem simulate_temp_monotone_witness :
    temp_series 450 0 ≤ temp_series 450 80 :=
  simulate_temp_monotone 80 450 10 20 40 0 80
    { year := 2025 + ((0 : ℕ) : ℤ)
      temp_anomaly_C := temp_series 450 0
      flood_risk := flood_risk 450 10 20 40 0
      drought_risk := drought_risk 450 10 20 0 }
    { year := 2025 + ((80 : ℕ) : ℤ)
      temp_anomaly_C := temp_series 450 80
      flood_risk := flood_risk 450 10 20 40 80
      drought_risk := drought_risk 450 10 20 80 }
    (by decide) (by decide) (by decide)
    (simulate_getElemQ 80 450 10 20 40 0 (by decide))
    (simulate_getElemQ 80 450 10 20 40 80 (by decide))

/-- C4: for every in-domain parameter set and every record of the simulate
result, flood_risk and drought_risk lie in the half-open interval [0,100). -/
theorem simulate_risks_bounded (years co2_ppm rainfall_change_pct green_infra_pct
    urbanization_pct : ℤ) (i : ℕ) (a : YearRecord)
    (hdom : InDomain years co2_ppm rainfall_change_pct green_infra_pct urbanization_pct)
    (hi : i ≤ years.toNat)
    (ha : (simulate years co2_ppm rainfall_change_pct green_infra_pct urbanization_pct)[i]?
      = some a) :
    0 ≤ a.flood_risk ∧ a.flood_risk < 100 ∧ 0 ≤ a.drought_risk ∧ a.drought_risk < 100 := by
  rw [simulate_getElemQ _ _ _ _ _ i (by omega)] at ha
  injection ha with ha2
  obtain ⟨hyr, _, hco2, _, hr, _, hg0, hg, hu, _⟩ := hdom
  subst ha2
  refine ⟨?_, ?_, ?_, ?_⟩
  · have hrs := runoff_series_nonneg hco2 hr hg hu i
    exact sat_transform_nonneg (by nlinarith)
  · exact sat_transform_lt_100 _
  · have hdi := drought_index_nonneg hco2 hr hg i
    exact sat_transform_nonneg (by nlinarith)
  · exact sat_transform_lt_100 _

/-- C4 witness: at the defaults, offset 80, the final record. -/
theorem simulate_risks_bounded_witness :
    0 ≤ flood_risk 450 10 20 40 80 ∧ flood_risk 450 10 20 40 80 < 100
      ∧ 0 ≤ drought_risk 450 10 20 80 ∧ drought_risk 450 10 20 80 < 100 :=
  simulate_risks_bounded 80 450 10 20 40 80
    { year := 2025 + ((80 : ℕ) : ℤ)
      temp_anomaly_C := temp_series 450 80
      flood_risk := flood_risk 450 10 20 40 80
      drought_risk := drought_risk 450 10 20 80 }
    (by decide) (by decide)
    (simulate_getElemQ 80 450 10 20 40 80 (by decide))

/-- C5: challenge evaluation against the final record is a two-state
machine on the won flag: the targets are Easy 55/55, Medium 40/40, Hard
30/30; when both risks are at or below target, the balloons effect fires
exactly when won was previously false and won becomes true (re-evaluating
an already-won state fires nothing); when either target is violated, won
becomes false and nothing fires. -/
theorem challenge_step_machine (d : Difficulty) (flood_val drought_val : ℝ) (won : Bool) :
    (target_flood Difficulty.Easy = 55 ∧ target_drought Difficulty.Easy = 55
      ∧ target_flood Difficulty.Medium = 40 ∧ target_drought Difficulty.Medium = 40
      ∧ target_flood Difficulty.Hard = 30 ∧ target_drought Difficulty.Hard = 30) ∧
    (flood_val ≤ (target_flood d : ℝ) ∧ drought_val ≤ (target_drought d : ℝ) →
      challengeStep d flood_val drought_val won = (true, !won) ∧
      challengeStep d flood_val drought_val true = (true, false)) ∧
    (¬(flood_val ≤ (target_flood d : ℝ) ∧ drought_val ≤ (target_drought d : ℝ)) →
      challengeStep d flood_val drought_val won = (false, false)) := by
  refine ⟨⟨rfl, rfl, rfl, rfl, rfl, rfl⟩, fun h => ⟨?_, ?_⟩, fun h => ?_⟩
  · unfold challengeStep
    rw [if_pos h]
  · unfold challengeStep
    rw [if_pos h]
    rfl
  · unfold challengeStep
    rw [if_neg h]

/-- C5 witness: difficulty Medium with final flood 38 and drought 35
transitions won from false to true and fires the effect once; re-evaluating
the won state fires nothing. -/
theorem challenge_step_machine_witness :
    challengeStep Difficulty.Medium 38 35 false = (true, true) ∧
    challengeStep Difficulty.Medium 38 35 true = (true, false) := by
  have h := (challenge_step_machine Difficulty.Medium 38 35 false).2.1
    (by constructor <;> norm_num [ target_flood, target_drought])
  exact ⟨h.1, h.2⟩

/-- C6: with both snapshot slots populated the comparison yields the three
componentwise deltas of the final records (B minus A); with either slot
empty it yields the incomplete-comparison indication instead. -/
theorem compare_deltas_or_incomplete (a b : Snapshot) (oa ob : Option Snapshot) :
    compareScenarios (some a) (some b)
      = some { dTemp := (finalRecord b.df).temp_anomaly_C - (finalRecord a.df).temp_anomaly_C
               dFlood := (finalRecord b.df).flood_risk - (finalRecord a.df).flood_risk
               dDrought := (finalRecord b.df).drought_risk - (finalRecord a.df).drought_risk } ∧
    compareScenarios none ob = none ∧
    compareScenarios oa none = none := by
  refine ⟨rfl, ?_, ?_⟩
  · cases ob <;> rfl
  · cases oa <;> rfl

/-- C7: resetAll restores every session field to the documented defaults,
whatever the prior state: horizon 80, CO2 450, rainfall +10, green 20,
urbanization 40, difficulty Medium, challenge off, comparison off, won
false, both snapshot slots empty (and mode Standard). -/
theorem reset_restores_defaults (s : SessionState) :
    resetAll s = DEFAULTS ∧
    (resetAll s).mode = Mode.Standard ∧
    (resetAll s).years = 80 ∧
    (resetAll s).co2_ppm = 450 ∧
    (resetAll s).rainfall_change_pct = 10 ∧
    (resetAll s).green_infra_pct = 20 ∧
    (resetAll s).urbanization_pct = 40 ∧
    (resetAll s).difficulty_choice = Difficulty.Medium ∧
    (resetAll s).challenge_on = false ∧
    (resetAll s).compare_on = false ∧
    (resetAll s).challenge_won = false ∧
    (resetAll s).scenario_A = none ∧
    (resetAll s).scenario_B = none :=
  ⟨rfl, rfl, rfl, rfl, rfl, rfl, rfl, rfl, rfl, rfl, rfl, rfl, rfl⟩

/-- C8: whenever kids mode is active, urbanization_pct is force-set to 45
before the simulation is computed, every other field is left as stored, and
the simulation of the pass runs on urbanization 45. -/
theorem kids_mode_override (s : SessionState) (h : s.mode = Mode.Kids) :
    (applyKidsOverride s).urbanization_pct = 45 ∧
    (applyKidsOverride s).mode = s.mode ∧
    (applyKidsOverride s).years = s.years ∧
    (applyKidsOverride s).co2_ppm = s.co2_ppm ∧
    (applyKidsOverride s).rainfall_change_pct = s.rainfall_change_pct ∧
    (applyKidsOverride s).green_infra_pct = s.green_infra_pct ∧
    (applyKidsOverride s).challenge_on = s.challenge_on ∧
    (applyKidsOverride s).challenge_won = s.challenge_won ∧
    (applyKidsOverride s).difficulty_choice = s.difficulty_choice ∧
    (applyKidsOverride s).compare_on = s.compare_on ∧
    (applyKidsOverride s).scenario_A = s.scenario_A ∧
    (applyKidsOverride s).scenario_B = s.scenario_B ∧
    currentResult s
      = simulate s.years s.co2_ppm s.rainfall_change_pct s.green_infra_pct 45 := by
  unfold applyKidsOverride currentResult
  rw [h]
  simp [applyKidsOverride, h]

/-- C8 witness: the defaults switched to Kids mode. -/
theorem kids_mode_override_witness :
    (applyKidsOverride { DEFAULTS with mode := Mode.Kids }).urbanization_pct = 45 ∧
    (applyKidsOverride { DEFAULTS with mode := Mode.Kids }).mode
      = SessionState.mode { DEFAULTS with mode := Mode.Kids } ∧
    (applyKidsOverride { DEFAULTS with mode := Mode.Kids }).years
      = SessionState.years { DEFAULTS with mode := Mode.Kids } ∧
    (applyKidsOverride { DEFAULTS with mode := Mode.Kids }).co2_ppm
      = SessionState.co2_ppm { DEFAULTS with mode := Mode.Kids } ∧
    (applyKidsOverride { DEFAULTS with mode := Mode.Kids }).rainfall_change_pct
      = SessionState.rainfall_change_pct { DEFAULTS with mode := Mode.Kids } ∧
    (applyKidsOverride { DEFAULTS with mode := Mode.Kids }).green_infra_pct
      = SessionState.green_infra_pct { DEFAULTS with mode := Mode.Kids } ∧
    (applyKidsOverride { DEFAULTS with mode := Mode.Kids }).challenge_on
      = SessionState.challenge_on { DEFAULTS with mode := Mode.Kids } ∧
    (applyKidsOverride { DEFAULTS with mode := Mode.Kids }).challenge_won
      = SessionState.challenge_won { DEFAULTS with mode := Mode.Kids } ∧
    (applyKidsOverride { DEFAULTS with mode := Mode.Kids }).difficulty_choice
      = SessionState.difficulty_choice { DEFAULTS with mode := Mode.Kids } ∧
    (applyKidsOverride { DEFAULTS with mode := Mode.Kids }).compare_on
      = SessionState.compare_on { DEFAULTS with mode := Mode.Kids } ∧
    (applyKidsOverride { DEFAULTS with mode := Mode.Kids }).scenario_A
      = SessionState.scenario_A { DEFAULTS with mode := Mode.Kids } ∧
    (applyKidsOverride { DEFAULTS with mode := Mode.Kids }).scenario_B
      = SessionState.scenario_B { DEFAULTS with mode := Mode.Kids } ∧
    currentResult { DEFAULTS with mode := Mode.Kids } = simulate 80 450 10 20 45 :=
  kids_mode_override { DEFAULTS with mode := Mode.Kids } rfl

/-- C9: each quick-scenario preset installs exactly its five-parameter
bundle (Business (80,650,10,10,65), Green (80,380,5,70,30), Urban
(80,520,15,15,85)), sets the mode to Standard and clears the won flag,
while leaving the challenge toggle, difficulty, comparison toggle, and both
snapshot slots untouched. -/
theorem preset_effects (p : Preset) (s : SessionState) :
    ((applyPreset p s).years, (applyPreset p s).co2_ppm,
      (applyPreset p s).rainfall_change_pct, (applyPreset p s).green_infra_pct,
      (applyPreset p s).urbanization_pct) = presetBundle p ∧
    presetBundle Preset.Business = (80, 650, 10, 10, 65) ∧
    presetBundle Preset.Green = (80, 380, 5, 70, 30) ∧
    presetBundle Preset.Urban = (80, 520, 15, 15, 85) ∧
    (applyPreset p s).mode = Mode.Standard ∧
    (applyPreset p s).challenge_won = false ∧
    (applyPreset p s).challenge_on = s.challenge_on ∧
    (applyPreset p s).difficulty_choice = s.difficulty_choice ∧
    (applyPreset p s).compare_on = s.compare_on ∧
    (applyPreset p s).scenario_A = s.scenario_A ∧
    (applyPreset p s).scenario_B = s.scenario_B := by
  cases p <;> exact ⟨rfl, rfl, rfl, rfl, rfl, rfl, rfl, rfl, rfl, rfl, rfl⟩

/-- C10: when the challenge is disabled, a rendering pass performs no
challenge evaluation: the won flag is left exactly as it was (so it can
stay true even when the current final risks exceed the targets) and no
effect fires. -/
theorem challenge_off_frame (s : SessionState) (flood_val drought_val : ℝ)
    (h : s.challenge_on = false) :
    challengeUpdate s flood_val drought_val = (s.challenge_won, false) := by
  unfold challengeUpdate
  rw [h]
  simp

/-- C10 witness: a state with the challenge off but won still true keeps
won true even against final risks 99/99, far above every target. -/
theorem challenge_off_frame_witness :
    challengeUpdate { DEFAULTS with challenge_won := true } 99 99 = (true, false) :=
  challenge_off_frame { DEFAULTS with challenge_won := true } 99 99 rfl

end ClimateSim
